import Mathlib

/-!
Shallow embedding of the NUVI audio diagnostic harness (`AudioCheck`) and the
capture pipeline (`AudioRecorder`), translated from the TypeScript sources.
Signal levels and sample rates are embedded as exact rationals; JS `??` and
`||` defaulting, truthiness tests, and `try`/`catch` fail-soft paths are
modelled explicitly.
-/

namespace NUVI

/-- Configuration record, `AudioCheckConfig` with every field resolved
(the constructor applies `??` defaults to each field). -/
structure AudioCheckConfig where
  echoTestDuration : ℚ
  micTestDuration : ℚ
  minMicLevel : ℚ
  maxBackgroundNoise : ℚ
  echoThreshold : ℚ
  targetSampleRate : ℚ
deriving DecidableEq, Repr

/-- The default configuration values applied by the `AudioCheck` constructor. -/
def defaultConfig : AudioCheckConfig :=
  { echoTestDuration := 3
    micTestDuration := 2
    minMicLevel := 1/1000
    maxBackgroundNoise := 5/1000
    echoThreshold := 5/100
    targetSampleRate := 24000 }

/-- Echo-test sub-result: `{ passed: boolean; echoLevel: number }`. -/
structure EchoTestResult where
  passed : Bool
  echoLevel : ℚ
deriving DecidableEq, Repr

/-- Microphone-test sub-result: `{ level: number; noise: number }`. -/
structure MicrophoneTestResult where
  level : ℚ
  noise : ℚ
deriving DecidableEq, Repr

/-- The harness field `results: Partial<AudioTestResults>`: each sub-result
may still be absent (`undefined`), modelled with `Option`. -/
structure PendingResults where
  sampleRate : Option ℚ
  echoTest : Option EchoTestResult
  microphoneTest : Option MicrophoneTestResult
deriving DecidableEq, Repr

/-- The empty `results` object a fresh `AudioCheck` starts with. -/
def emptyResults : PendingResults := ⟨none, none, none⟩

/-- Completed `AudioTestResults` as returned by `getCompleteResults`. -/
structure AudioTestResults where
  timestamp : Nat
  sampleRate : ℚ
  echoTest : EchoTestResult
  microphoneTest : MicrophoneTestResult
  overallPassed : Bool
deriving DecidableEq, Repr

/-- `AudioCheck.isTestPassed`: the overall verdict over the (possibly still
partial) results, with the source JS defaults `?? 0`, `?? false`, `?? 0`,
`?? 1` for absent sub-results. -/
def isTestPassed (cfg : AudioCheckConfig) (r : PendingResults) : Bool :=
  decide (r.sampleRate.getD 0 ≥ cfg.targetSampleRate)
    && (r.echoTest.map EchoTestResult.passed).getD false
    && decide ((r.microphoneTest.map MicrophoneTestResult.level).getD 0 ≥ cfg.minMicLevel)
    && decide ((r.microphoneTest.map MicrophoneTestResult.noise).getD 1 < cfg.maxBackgroundNoise)

/-- `AudioCheck.isComplete`: JS truthiness of
`results.sampleRate && results.echoTest && results.microphoneTest`
(a numeric `sampleRate` of `0` is falsy; present objects are truthy). -/
def isComplete (r : PendingResults) : Bool :=
  (match r.sampleRate with
   | some v => decide (v ≠ 0)
   | none => false)
    && r.echoTest.isSome && r.microphoneTest.isSome

/-- `AudioCheck.getCompleteResults`: throws when `isComplete` is false,
otherwise assembles the full record (the `!` assertions on the three
sub-results are modelled by `Option.getD`, only reached when present). -/
def getCompleteResults (cfg : AudioCheckConfig) (timestamp : Nat)
    (r : PendingResults) : Except String AudioTestResults :=
  if isComplete r then
    .ok { timestamp := timestamp
          sampleRate := r.sampleRate.getD 0
          echoTest := r.echoTest.getD ⟨false, 0⟩
          microphoneTest := r.microphoneTest.getD ⟨0, 0⟩
          overallPassed := isTestPassed cfg r }
  else
    .error "Audio check is not complete"

/-- Mutable state of one `AudioCheck` instance that the test methods read
and write: `initialized` stands for `audioContext`, `source` and
`volMeterWorklet` all being present (what the guard `!this.audioContext ||
!this.source` checks after a successful `init`). -/
structure CheckState where
  initialized : Bool
  isRunning : Bool
  results : PendingResults
  backgroundNoiseLevel : ℚ
  volumeHistory : List ℚ
deriving DecidableEq, Repr

/-- A fresh, successfully initialized harness (state right after `init`). -/
def readyState : CheckState :=
  { initialized := true
    isRunning := false
    results := emptyResults
    backgroundNoiseLevel := 0
    volumeHistory := [] }

/-- Average of a list of volume samples, as computed at the tail of
`measureBackgroundNoise` and in `runEchoTest`:
`length > 0 ? sum / length : 0`. -/
def avgVolume (l : List ℚ) : ℚ :=
  if l.length > 0 then l.sum / l.length else 0

/-- Environment of one `runEchoTest` call: the volume samples delivered by
the worklet during the 1-second baseline window and during the tone window,
and whether some step inside the `try` block throws. -/
structure EchoEnv where
  bodyError : Bool
  noiseVolumes : List ℚ
  echoVolumes : List ℚ
deriving DecidableEq, Repr

/-- `AudioCheck.runEchoTest`. Throws only on the not-initialized guard.
Inside the `try`, a baseline noise level is measured, a 1 kHz tone is played
while echo volumes are collected, and
`echoLevel = max(0, avgEchoVolume - backgroundNoiseLevel)` is compared to the
threshold; the sub-result is stored in `results.echoTest`. Any error inside
the `try` is caught: the method resolves with the worst case
`{passed: false, echoLevel: 1}` — and the catch block does not write
`results.echoTest` (the thrown error is modelled as occurring before
`measureBackgroundNoise` commits its average). -/
def runEchoTest (cfg : AudioCheckConfig) (env : EchoEnv) (s : CheckState) :
    Except String (EchoTestResult × CheckState) :=
  if s.initialized = false then
    .error "AudioCheck not initialized. Call init() first."
  else if env.bodyError then
    .ok (⟨false, 1⟩, { s with isRunning := false })
  else
    let baseline := avgVolume env.noiseVolumes
    let avgEchoVolume := avgVolume env.echoVolumes
    let echoLevel := max 0 (avgEchoVolume - baseline)
    let echoPassed := decide (echoLevel < cfg.echoThreshold)
    .ok (⟨echoPassed, echoLevel⟩,
      { s with isRunning := false
               backgroundNoiseLevel := baseline
               results := { s.results with echoTest := some ⟨echoPassed, echoLevel⟩ } })

/-- Environment of one `runMicTest` call: the volume samples pushed into
`volumeHistory` during the measurement window, and whether some step inside
the `try` block throws. -/
structure MicEnv where
  bodyError : Bool
  volumes : List ℚ
deriving DecidableEq, Repr

/-- `Math.floor(n * p)` for a nonnegative rational fraction `p`, the
percentile index computed on `sortedVolumes.length`. -/
def percentileIndex (n : Nat) (p : ℚ) : Nat :=
  (⌊(n : ℚ) * p⌋).toNat

/-- `sortedVolumes[i] || 0`: the element when the index is in range, `0`
when the indexing yields `undefined` (and a present `0` is kept as `0`). -/
def volumeAt (sorted : List ℚ) (i : Nat) : ℚ :=
  sorted.getD i 0

/-- `AudioCheck.runMicTest`. Throws only on the not-initialized guard.
Inside the `try`, `volumeHistory` is reset and collected for the window,
then the ascending sort of the history is taken and the 95th / 10th
percentile elements become `{level, noise}`, stored in
`results.microphoneTest`. Any error inside the `try` is caught: the method
resolves with the worst case `{level: 0, noise: 1}`, without writing
`results.microphoneTest` (the error is modelled as thrown right after the
history reset). -/
def runMicTest (cfg : AudioCheckConfig) (env : MicEnv) (s : CheckState) :
    Except String (MicrophoneTestResult × CheckState) :=
  if s.initialized = false then
    .error "AudioCheck not initialized. Call init() first."
  else if env.bodyError then
    .ok (⟨0, 1⟩, { s with isRunning := false, volumeHistory := [] })
  else
    let sortedVolumes := List.insertionSort (· ≤ ·) env.volumes
    let percentile95 := volumeAt sortedVolumes (percentileIndex sortedVolumes.length (95/100))
    let percentile10 := volumeAt sortedVolumes (percentileIndex sortedVolumes.length (10/100))
    .ok (⟨percentile95, percentile10⟩,
      { s with isRunning := false
               volumeHistory := env.volumes
               results := { s.results with microphoneTest := some ⟨percentile95, percentile10⟩ } })

/-- The fixed candidate list probed by `getMaxSupportedSampleRate`. -/
def testRates : List Nat := [96000, 88200, 48000, 44100, 24000, 22050, 16000, 8000]

/-- One probe step of `getMaxSupportedSampleRate`: opening a throwaway
context at `rate` either throws (`none`) or realizes `some actual`; the
candidate is accepted when `|actual - rate| < 1`. -/
def rateAccepted (probe : Nat → Option ℚ) (rate : Nat) : Bool :=
  match probe rate with
  | some actual => decide (|actual - (rate : ℚ)| < 1)
  | none => false

/-- The `for (const rate of testRates)` loop: return the first accepted
candidate, `none` when every probe is rejected or throws. -/
def findSupportedRate (probe : Nat → Option ℚ) : List Nat → Option Nat
  | [] => none
  | r :: rs => if rateAccepted probe r then some r else findSupportedRate probe rs

/-- `AudioCheck.getMaxSupportedSampleRate`: the loop over `testRates`, then
the fallback `this.audioContext?.sampleRate || 24000` (optional chaining on
a possibly-null context, `||` treating a `0` rate as falsy). -/
def getMaxSupportedSampleRate (probe : Nat → Option ℚ) (contextRate : Option ℚ) : ℚ :=
  match findSupportedRate probe testRates with
  | some r => (r : ℚ)
  | none =>
    match contextRate with
    | some sr => if sr ≠ 0 then sr else 24000
    | none => 24000

/-- `AudioCheck.getSampleRate` as called with an open context whose realized
rate is `contextRate`: records it into `results.sampleRate` and returns it
(the advisory max-supported probe does not affect the state). -/
def getSampleRate (contextRate : ℚ) (s : CheckState) : ℚ × CheckState :=
  (contextRate,
    { s with isRunning := false
             results := { s.results with sampleRate := some contextRate } })

/-- Environment of one `runAllTests` call: whether `init` fails, the
realized context sample rate after a successful `init`, the two test
environments, and the completion timestamp. -/
structure RunEnv where
  initFails : Bool
  contextRate : ℚ
  echo : EchoEnv
  mic : MicEnv
  timestamp : Nat
deriving DecidableEq, Repr

/-- The harness state after `init`, `getSampleRate`, `runEchoTest` and
`runMicTest` have run inside a `runAllTests` whose `init` succeeded (with
`initialized = true` the two test methods never hit their guard; the
`.error` fallbacks below are unreachable). -/
def runAllTestsAux (cfg : AudioCheckConfig) (env : RunEnv) : CheckState :=
  let s1 := (getSampleRate env.contextRate readyState).2
  let s2 := match runEchoTest cfg env.echo s1 with
            | .ok (_, s) => s
            | .error _ => s1
  match runMicTest cfg env.mic s2 with
  | .ok (_, s) => s
  | .error _ => s2

/-- `AudioCheck.runAllTests`: `init` first (its failure propagates after
cleanup), then the three stages in sequence, then `getCompleteResults`
(whose failure also propagates); `cleanup` in the `finally` releases
resources but does not touch the returned value. -/
def runAllTests (cfg : AudioCheckConfig) (env : RunEnv) : Except String AudioTestResults :=
  if env.initFails then
    .error "init failed"
  else
    getCompleteResults cfg env.timestamp (runAllTestsAux cfg env).results

/-! ### `AudioRecorder` (src/lib/audio-recorder.ts)

The capture pipeline's `start`/`stop` interplay is modelled as a small
transition system. `opens` counts successful device acquisitions
(`getUserMedia` resolutions), `closes` counts `track.stop()` calls on the
single mono track, `streamOpen` says whether `this.stream` currently holds
a live `MediaStream`, and `startingPending` whether `this.starting` holds a
not-yet-settled promise. -/

structure RecorderState where
  streamOpen : Bool
  opens : Nat
  closes : Nat
  recording : Bool
  startingPending : Bool
deriving DecidableEq, Repr

/-- A freshly-constructed `AudioRecorder`. -/
def initialRecorder : RecorderState :=
  { streamOpen := false, opens := 0, closes := 0, recording := false, startingPending := false }

/-- How one in-flight `start()` body settles: every step succeeds; the
`getUserMedia` acquisition itself rejects; or a later step (context
creation, worklet module load, node construction) throws after the device
stream was already acquired. -/
inductive StartOutcome
  | success
  | failBeforeStream
  | failAfterStream
deriving DecidableEq, Repr

/-- Running the promise body installed by `start()` to its settling point.
Returns whether the promise fulfilled, plus the state it leaves behind: on
`failAfterStream` the catch block only rejects and nulls `this.starting` —
the already-acquired stream is kept in `this.stream` with its track live. -/
def startBody (o : StartOutcome) (s : RecorderState) : Bool × RecorderState :=
  match o with
  | .success =>
    (true, { s with streamOpen := true, opens := s.opens + 1,
                    recording := true, startingPending := false })
  | .failBeforeStream =>
    (false, { s with startingPending := false })
  | .failAfterStream =>
    (false, { s with streamOpen := true, opens := s.opens + 1, startingPending := false })

/-- The `handleStop` closure inside `stop()`: disconnect the source, stop
every track of the held stream, clear the fields. -/
def handleStop (s : RecorderState) : RecorderState :=
  { s with closes := s.closes + (if s.streamOpen then 1 else 0)
           streamOpen := false
           recording := false }

/-- The scenario of spec §: `stop()` invoked while `start()` is still in
flight. `stop()` sees `this.starting` non-null and defers `handleStop` via
`this.starting.then(handleStop)`; `.then` with only a fulfillment handler
runs `handleStop` after the body settles only when the promise fulfilled —
on rejection the deferred `handleStop` never runs. -/
def stopDuringStart (o : StartOutcome) : RecorderState :=
  let s1 := { initialRecorder with startingPending := true }
  let settled := startBody o s1
  if settled.1 then handleStop settled.2 else settled.2

/-- The second concurrency scenario: a `start()` invoked while a previous
`start()` has not settled. `start()` has no guard on `this.starting`; each
invocation unconditionally assigns a fresh promise to `this.starting`,
whose body acquires the device. The returned `Nat` is the identity of the
promise the caller gets back (`return this.starting`). -/
def startNoGuard (attemptId : Nat) (opens : Nat) (startingId : Option Nat) :
    Nat × (Nat × Option Nat) :=
  (attemptId, (opens + 1, some attemptId))

/-- Two overlapping `start()` calls, each body acquiring successfully:
(promise observed by caller 1, promise observed by caller 2,
(total device acquisitions, final `starting` field)). -/
def concurrentDoubleStart : Nat × Nat × (Nat × Option Nat) :=
  let first := startNoGuard 1 0 none
  let second := startNoGuard 2 first.2.1 first.2.2
  (first.1, second.1, second.2)

/-! ### `AudioCheck.cleanup`

Resource-level view of the harness for the idempotence claim. `heldTracks`
is the number of tracks inside the `MediaStream` currently referenced by
`this.stream` (`none` when the field is null); `liveHandles` counts device
tracks of this harness session not yet stopped. -/

structure CheckResources where
  isRunning : Bool
  oscillatorPresent : Bool
  gainPresent : Bool
  volMeterPresent : Bool
  sourcePresent : Bool
  heldTracks : Option Nat
  liveHandles : Nat
  audioContextPresent : Bool
deriving DecidableEq, Repr

/-- `AudioCheck.cleanup`: stop and disconnect the oscillator (inside a
`try`/`catch`, so an already-stopped oscillator raises nothing),
disconnect gain, volume meter and source, stop every track of the held
stream, and null out every field (the shared audio context is only
dereferenced, not closed). Total: no branch throws. -/
def cleanup (w : CheckResources) : CheckResources :=
  { isRunning := false
    oscillatorPresent := false
    gainPresent := false
    volMeterPresent := false
    sourcePresent := false
    heldTracks := none
    liveHandles := w.liveHandles - w.heldTracks.getD 0
    audioContextPresent := false }

/-! ### Concrete inputs used by witnesses -/

/-- A platform that honors exactly 48000 and 16000 from the candidate list:
probes at any other rate realize a clamped 48000 Hz context instead. -/
def probe4816 : Nat → Option ℚ :=
  fun r => if r = 48000 ∨ r = 16000 then some (r : ℚ) else some 48000

/-- A 100-sample ascending level history. -/
def hist100 : List ℚ := List.map (fun i : ℕ => (i : ℚ)) (List.range 100)

end NUVI

namespace NUVI

/-! ### Helper lemmas -/

theorem isComplete_spec (r : PendingResults) (h : isComplete r = true) :
    ∃ sr et mt, r.sampleRate = some sr ∧ sr ≠ 0 ∧ r.echoTest = some et ∧
      r.microphoneTest = some mt := by
  rcases hsr : r.sampleRate with _ | sr <;>
    rcases het : r.echoTest with _ | et <;>
      rcases hmt : r.microphoneTest with _ | mt <;>
        simp_all [isComplete]

theorem findSupportedRate_eq_find (probe : Nat → Option ℚ) (l : List Nat) :
    findSupportedRate probe l = l.find? (rateAccepted probe) := by
  induction l with
  | nil => rfl
  | cons r rs ih =>
    by_cases hr : rateAccepted probe r = true
    · simp [findSupportedRate, List.find?, hr]
    · simp only [Bool.not_eq_true] at hr
      simp [findSupportedRate, List.find?, hr, ih]

theorem percentileIndex_lt (n : Nat) (p : ℚ) (hn : 0 < n) (hp1 : p < 1) :
    percentileIndex n p < n := by
  unfold percentileIndex
  have h1 : (n : ℚ) * p < (n : ℚ) := by
    calc (n : ℚ) * p < (n : ℚ) * 1 :=
          mul_lt_mul_of_pos_left hp1 (by exact_mod_cast hn)
      _ = (n : ℚ) := mul_one _
  have h2 : ⌊(n : ℚ) * p⌋ < (n : ℤ) := by
    rw [Int.floor_lt]
    exact_mod_cast h1
  exact (Int.toNat_lt' (Nat.pos_iff_ne_zero.mp hn)).mpr h2

/-! ### Claim theorems -/

/-- C1: whenever all three sub-results are present, `isTestPassed` is
exactly the conjunction of the four sub-checks; with the default config and
a measured noise of 0.006 the overall verdict is false even though the
sample rate (24000 ≥ 24000), the echo test (`passed = true`) and the mic
level (0.02 ≥ 0.001) all pass — the noise 0.006 is not below 0.005. -/
theorem overall_verdict_conjunction :
    (∀ (cfg : AudioCheckConfig) (sr : ℚ) (et : EchoTestResult) (mt : MicrophoneTestResult),
        isTestPassed cfg ⟨some sr, some et, some mt⟩ =
          (decide (sr ≥ cfg.targetSampleRate) && et.passed
            && decide (mt.level ≥ cfg.minMicLevel)
            && decide (mt.noise < cfg.maxBackgroundNoise))) ∧
    isTestPassed defaultConfig
        ⟨some 24000, some ⟨true, 1/100⟩, some ⟨2/100, 6/1000⟩⟩ = false ∧
    (24000 : ℚ) ≥ defaultConfig.targetSampleRate ∧
    (2/100 : ℚ) ≥ defaultConfig.minMicLevel ∧
    ¬ ((6/1000 : ℚ) < defaultConfig.maxBackgroundNoise) :=
  ⟨fun _ _ _ _ => rfl, by norm_num [isTestPassed, defaultConfig],
    by norm_num [defaultConfig], by norm_num [defaultConfig], by norm_num [defaultConfig]⟩

/-- C2: whenever `runAllTests` returns a value, the internal results of the
run were complete (all three sub-results present) and every field of the
returned record is the corresponding recorded sub-result, with
`overallPassed` the verdict over those complete results — a
partially-populated record is never returned. -/
theorem runAllTests_no_partial_result (cfg : AudioCheckConfig) (env : RunEnv)
    (r : AudioTestResults) (h : runAllTests cfg env = .ok r) :
    isComplete (runAllTestsAux cfg env).results = true ∧
    (runAllTestsAux cfg env).results.sampleRate = some r.sampleRate ∧
    (runAllTestsAux cfg env).results.echoTest = some r.echoTest ∧
    (runAllTestsAux cfg env).results.microphoneTest = some r.microphoneTest ∧
    r.overallPassed = isTestPassed cfg (runAllTestsAux cfg env).results := by
  unfold runAllTests at h
  by_cases hinit : env.initFails = true
  · simp [hinit] at h
  · simp only [Bool.not_eq_true] at hinit
    simp only [hinit, Bool.false_eq_true, if_false] at h
    unfold getCompleteResults at h
    by_cases hc : isComplete (runAllTestsAux cfg env).results = true
    · simp only [hc, if_true] at h
      obtain ⟨sr, et, mt, hsr, _, het, hmt⟩ := isComplete_spec _ hc
      cases h
      refine ⟨hc, ?_, ?_, ?_, rfl⟩
      · simp [hsr]
      · simp [het]
      · simp [hmt]
    · simp only [Bool.not_eq_true] at hc
      simp [hc] at h

/-- C2 witness: a concrete fault-free run returning a complete record. -/
theorem runAllTests_no_partial_result_witness :
    isComplete (runAllTestsAux defaultConfig ⟨false, 24000, ⟨false, [], []⟩, ⟨false, []⟩, 7⟩).results
      = true :=
  (runAllTests_no_partial_result defaultConfig ⟨false, 24000, ⟨false, [], []⟩, ⟨false, []⟩, 7⟩
    ⟨7, 24000, ⟨true, 0⟩, ⟨0, 0⟩, false⟩ (by norm_num [runAllTests, runAllTestsAux,
      getSampleRate, runEchoTest, runMicTest, getCompleteResults, readyState, emptyResults,
      avgVolume, volumeAt, percentileIndex, isComplete, isTestPassed, defaultConfig,
      List.insertionSort])).1

/-- C3 counterexample: with an error raised inside the echo-test body, the
method resolves (no propagation) with the worst-case outcome, but the
resulting state has nothing recorded under `results.echoTest` — the claimed
"with that outcome recorded as the echo-test result" is false. -/
theorem echo_worst_case_not_recorded_cex :
    runEchoTest defaultConfig ⟨true, [], []⟩ readyState =
      .ok (⟨false, 1⟩, { readyState with isRunning := false }) ∧
    ({ readyState with isRunning := false } : CheckState).results.echoTest = none ∧
    ({ readyState with isRunning := false } : CheckState).results.echoTest ≠
      some ⟨false, 1⟩ := by
  refine ⟨rfl, rfl, by simp [readyState, emptyResults]⟩

/-- C3 (amended): an error inside the test body never propagates — the echo
test resolves with the worst case `{passed: false, echoLevel: 1}` and the
mic test with `{level: 0, noise: 1}` — but neither worst-case outcome is
written into the stored results, which keep their previous sub-results. -/
theorem tests_fail_soft (cfg : AudioCheckConfig) (envE : EchoEnv) (envM : MicEnv)
    (s : CheckState) (hs : s.initialized = true)
    (he : envE.bodyError = true) (hm : envM.bodyError = true) :
    runEchoTest cfg envE s = .ok (⟨false, 1⟩, { s with isRunning := false }) ∧
    ({ s with isRunning := false } : CheckState).results = s.results ∧
    runMicTest cfg envM s = .ok (⟨0, 1⟩, { s with isRunning := false, volumeHistory := [] }) ∧
    ({ s with isRunning := false, volumeHistory := [] } : CheckState).results = s.results := by
  refine ⟨?_, rfl, ?_, rfl⟩
  · simp [runEchoTest, hs, he]
  · simp [runMicTest, hs, hm]

/-- C3 witness: the amended fail-soft behavior at a concrete erroring run. -/
theorem tests_fail_soft_witness :
    runEchoTest defaultConfig ⟨true, [1], [1]⟩ readyState =
      .ok (⟨false, 1⟩, { readyState with isRunning := false }) ∧
    ({ readyState with isRunning := false } : CheckState).results = readyState.results ∧
    runMicTest defaultConfig ⟨true, [1]⟩ readyState =
      .ok (⟨0, 1⟩, { readyState with isRunning := false, volumeHistory := [] }) ∧
    ({ readyState with isRunning := false, volumeHistory := [] } : CheckState).results =
      readyState.results :=
  tests_fail_soft defaultConfig ⟨true, [1], [1]⟩ ⟨true, [1]⟩ readyState rfl rfl rfl

/-- C4: on the success path the echo test measures the baseline as the
average of the noise window, computes
`echoLevel = max 0 (average echo volume - baseline)`, and passes exactly
when `echoLevel < echoThreshold`; when the tone-window average equals the
baseline, the echo level is `0` and the test passes for every positive
threshold. -/
theorem echo_level_spec (cfg : AudioCheckConfig) (env : EchoEnv) (s : CheckState)
    (hs : s.initialized = true) (he : env.bodyError = false)
    (res : EchoTestResult) (st : CheckState)
    (h : runEchoTest cfg env s = .ok (res, st)) :
    st.backgroundNoiseLevel = avgVolume env.noiseVolumes ∧
    res.echoLevel = max 0 (avgVolume env.echoVolumes - st.backgroundNoiseLevel) ∧
    (res.passed = true ↔ res.echoLevel < cfg.echoThreshold) ∧
    (avgVolume env.echoVolumes = avgVolume env.noiseVolumes →
      res.echoLevel = 0 ∧ (0 < cfg.echoThreshold → res.passed = true)) := by
  simp only [runEchoTest, hs, he] at h
  simp only [Bool.true_eq_false, if_false, Bool.false_eq_true, Except.ok.injEq,
    Prod.mk.injEq] at h
  obtain ⟨hres, hst⟩ := h
  subst hres
  subst hst
  refine ⟨rfl, rfl, by simp, ?_⟩
  intro heq
  refine ⟨by simp [heq], fun hthr => ?_⟩
  simp [heq, hthr]

/-- C4 witness: a run where the measured tone-window average equals the
baseline exactly: echo level 0, test passed under the default threshold. -/
theorem echo_level_spec_witness :
    (⟨true, (0 : ℚ)⟩ : EchoTestResult).echoLevel = 0 ∧
    (0 < defaultConfig.echoThreshold → (⟨true, (0 : ℚ)⟩ : EchoTestResult).passed = true) :=
  (echo_level_spec defaultConfig ⟨false, [1/10], [1/10]⟩ readyState rfl rfl
    ⟨true, 0⟩ ⟨true, false, ⟨none, some ⟨true, 0⟩, none⟩, 1/10, []⟩
    (by norm_num [runEchoTest, readyState, emptyResults, avgVolume, defaultConfig])).2.2.2 rfl

/-- C5: on the success path with a non-empty history of length `n`, both
percentile indices `floor(0.95*n)` and `floor(0.10*n)` are in range, the
reported level and noise are the elements at those indices of the
ascending-sorted history (which is the unique sorted permutation of the
history), and the pair is recorded as the microphone sub-result. -/
theorem mic_percentiles_spec (cfg : AudioCheckConfig) (env : MicEnv) (s : CheckState)
    (hs : s.initialized = true) (he : env.bodyError = false) (hne : env.volumes ≠ [])
    (res : MicrophoneTestResult) (st : CheckState)
    (h : runMicTest cfg env s = .ok (res, st)) :
    (List.insertionSort (· ≤ ·) env.volumes).Perm env.volumes ∧
    (List.insertionSort (· ≤ ·) env.volumes).Sorted (· ≤ ·) ∧
    (∀ l : List ℚ, l.Perm env.volumes → l.Sorted (· ≤ ·) →
      l = List.insertionSort (· ≤ ·) env.volumes) ∧
    percentileIndex env.volumes.length (95/100) < env.volumes.length ∧
    percentileIndex env.volumes.length (10/100) < env.volumes.length ∧
    res.level = volumeAt (List.insertionSort (· ≤ ·) env.volumes)
      (percentileIndex env.volumes.length (95/100)) ∧
    res.noise = volumeAt (List.insertionSort (· ≤ ·) env.volumes)
      (percentileIndex env.volumes.length (10/100)) ∧
    st.results.microphoneTest = some res := by
  have hpos : 0 < env.volumes.length := List.length_pos.mpr hne
  simp only [runMicTest, hs, he] at h
  simp only [Bool.true_eq_false, if_false, Bool.false_eq_true, Except.ok.injEq,
    Prod.mk.injEq] at h
  obtain ⟨hres, hst⟩ := h
  subst hres
  subst hst
  refine ⟨List.perm_insertionSort _ _, List.sorted_insertionSort _ _, ?_, ?_, ?_, ?_, ?_, rfl⟩
  · intro l hp hsrt
    exact List.eq_of_perm_of_sorted (hp.trans (List.perm_insertionSort _ _).symm) hsrt
      (List.sorted_insertionSort _ _)
  · exact percentileIndex_lt _ _ hpos (by norm_num)
  · exact percentileIndex_lt _ _ hpos (by norm_num)
  · rw [List.length_insertionSort]
  · rw [List.length_insertionSort]

theorem hist100_sorted : hist100.Sorted (· ≤ ·) := by
  rw [hist100, List.Sorted, List.pairwise_map]
  refine (List.pairwise_le_range 100).imp ?_
  intro a b hab
  exact_mod_cast hab

theorem hist100_length : hist100.length = 100 := by
  simp [hist100]

theorem hist100_getD_95 : hist100.getD 95 0 = 95 := by
  rw [hist100, List.getD_eq_getElem?_getD, List.getElem?_map,
    List.getElem?_range (by norm_num)]
  rfl

theorem hist100_getD_10 : hist100.getD 10 0 = 10 := by
  rw [hist100, List.getD_eq_getElem?_getD, List.getElem?_map,
    List.getElem?_range (by norm_num)]
  rfl

theorem percentileIndex_100_95 : percentileIndex 100 (95/100) = 95 := by
  unfold percentileIndex
  rw [show ((100 : ℕ) : ℚ) * (95/100) = ((95 : ℤ) : ℚ) by norm_num, Int.floor_intCast]
  rfl

theorem percentileIndex_100_10 : percentileIndex 100 (10/100) = 10 := by
  unfold percentileIndex
  rw [show ((100 : ℕ) : ℚ) * (10/100) = ((10 : ℤ) : ℚ) by norm_num, Int.floor_intCast]
  rfl

/-- Evaluating the mic test on the 100-sample ascending history. -/
theorem runMicTest_hist100 :
    runMicTest defaultConfig ⟨false, hist100⟩ readyState =
      .ok (⟨95, 10⟩, ⟨true, false, ⟨none, none, some ⟨95, 10⟩⟩, 0, hist100⟩) := by
  simp only [runMicTest, readyState, Bool.true_eq_false, if_false, Bool.false_eq_true,
    hist100_sorted.insertionSort_eq, hist100_length, percentileIndex_100_95,
    percentileIndex_100_10, volumeAt, hist100_getD_95, hist100_getD_10, emptyResults]

/-- C5 witness: the 100-sample ascending history: level is the element at
index `floor(0.95*100) = 95`, noise the element at index
`floor(0.10*100) = 10`. -/
theorem mic_percentiles_spec_witness :
    (List.insertionSort (· ≤ ·) hist100).Perm hist100 ∧
    (List.insertionSort (· ≤ ·) hist100).Sorted (· ≤ ·) ∧
    (∀ l : List ℚ, l.Perm hist100 → l.Sorted (· ≤ ·) →
      l = List.insertionSort (· ≤ ·) hist100) ∧
    percentileIndex hist100.length (95/100) < hist100.length ∧
    percentileIndex hist100.length (10/100) < hist100.length ∧
    (⟨95, 10⟩ : MicrophoneTestResult).level =
      volumeAt (List.insertionSort (· ≤ ·) hist100) (percentileIndex hist100.length (95/100)) ∧
    (⟨95, 10⟩ : MicrophoneTestResult).noise =
      volumeAt (List.insertionSort (· ≤ ·) hist100) (percentileIndex hist100.length (10/100)) ∧
    (⟨true, false, ⟨none, none, some ⟨95, 10⟩⟩, 0, hist100⟩ : CheckState).results.microphoneTest
      = some ⟨95, 10⟩ :=
  mic_percentiles_spec defaultConfig ⟨false, hist100⟩ readyState rfl rfl
    (by simp [hist100]) ⟨95, 10⟩ ⟨true, false, ⟨none, none, some ⟨95, 10⟩⟩, 0, hist100⟩
    runMicTest_hist100

/-- C6: the probe walks the fixed descending candidate list and returns the
first candidate it accepts; a probed candidate is accepted exactly when the
realized rate is within 1 Hz of the request (a throwing probe is never
accepted); on a platform honoring only 48000 and 16000 of the list the
probe returns 48000, whatever the fallback context rate is. -/
theorem sample_rate_probe_spec :
    (∀ (probe : Nat → Option ℚ) (contextRate : Option ℚ) (r : Nat),
        testRates.find? (rateAccepted probe) = some r →
        getMaxSupportedSampleRate probe contextRate = r) ∧
    (∀ (probe : Nat → Option ℚ) (rate : Nat) (actual : ℚ),
        probe rate = some actual →
        (rateAccepted probe rate = true ↔ |actual - (rate : ℚ)| < 1)) ∧
    (∀ (probe : Nat → Option ℚ) (rate : Nat),
        probe rate = none → rateAccepted probe rate = false) ∧
    testRates = [96000, 88200, 48000, 44100, 24000, 22050, 16000, 8000] ∧
    (∀ contextRate, getMaxSupportedSampleRate probe4816 contextRate = 48000) := by
  refine ⟨?_, ?_, ?_, rfl, ?_⟩
  · intro probe cr r h
    unfold getMaxSupportedSampleRate
    rw [findSupportedRate_eq_find, h]
  · intro probe rate actual h
    unfold rateAccepted
    rw [h]
    simp
  · intro probe rate h
    unfold rateAccepted
    rw [h]
  · intro cr
    unfold getMaxSupportedSampleRate
    rw [findSupportedRate_eq_find]
    norm_num [testRates, List.find?, rateAccepted, probe4816]

/-- C6 witness: the two-rate platform, probed with no fallback context. -/
theorem sample_rate_probe_spec_witness :
    getMaxSupportedSampleRate probe4816 none = 48000 := by
  exact_mod_cast sample_rate_probe_spec.1 probe4816 none 48000
    (by norm_num [testRates, List.find?, rateAccepted, probe4816])

/-- C7 counterexample: `stop()` during an in-flight `start()` whose
acquisition fails after the device stream was acquired: the deferred
`handleStop` is registered with `.then` (fulfillment only) and never runs,
so one open has no matching close and the stream field stays set —
refuting the claim as stated for this settling. -/
theorem stop_during_start_cex :
    ¬ ((stopDuringStart StartOutcome.failAfterStream).opens =
          (stopDuringStart StartOutcome.failAfterStream).closes ∧
       (stopDuringStart StartOutcome.failAfterStream).streamOpen = false) := by
  decide

/-- C7 (amended): when the in-flight acquisition fulfills, or fails before
the device is acquired, the deferred stop leaves no live handle (opens =
closes, stream cleared, not recording); but when the acquisition fails
after the device stream was acquired, the rejected promise never triggers
the deferred stop and the acquired handle stays open. -/
theorem stop_during_start_amended (o : StartOutcome) :
    (o ≠ StartOutcome.failAfterStream →
      (stopDuringStart o).opens = (stopDuringStart o).closes ∧
      (stopDuringStart o).streamOpen = false ∧
      (stopDuringStart o).recording = false) ∧
    (o = StartOutcome.failAfterStream →
      (stopDuringStart o).opens = 1 ∧ (stopDuringStart o).closes = 0 ∧
      (stopDuringStart o).streamOpen = true) := by
  cases o <;> decide

/-- C7 witness: the successful-acquisition settling, where the deferred
stop does release everything. -/
theorem stop_during_start_amended_witness :
    (stopDuringStart StartOutcome.success).opens =
      (stopDuringStart StartOutcome.success).closes ∧
    (stopDuringStart StartOutcome.success).streamOpen = false ∧
    (stopDuringStart StartOutcome.success).recording = false :=
  (stop_during_start_amended StartOutcome.success).1 (by decide)

/-- C8 counterexample: two overlapping `start()` calls do not observe the
same in-progress attempt (the returned promises differ) and the device is
acquired twice — refuting the single-flight claim. -/
theorem double_start_cex :
    ¬ (concurrentDoubleStart.1 = concurrentDoubleStart.2.1 ∧
       concurrentDoubleStart.2.2.1 ≤ 1) := by
  decide

/-- C8 (amended): `start()` has no in-flight guard: a second call while the
first is unsettled creates and returns a fresh attempt (caller 1 observes
attempt 1, caller 2 observes attempt 2), overwrites the `starting` field
with the second attempt, and the device is acquired a second time. -/
theorem double_start_amended :
    concurrentDoubleStart.1 = 1 ∧ concurrentDoubleStart.2.1 = 2 ∧
    concurrentDoubleStart.2.2.1 = 2 ∧ concurrentDoubleStart.2.2.2 = some 2 := by
  decide

/-- C9: `cleanup` is idempotent and total from every harness state: a
second call equals the first (and raises nothing, being a total function),
after any call every resource field is cleared, and when the session's live
tracks are exactly the ones held in the stream field, none is left live. -/
theorem cleanup_idempotent (w : CheckResources) :
    cleanup (cleanup w) = cleanup w ∧
    (cleanup w).isRunning = false ∧
    (cleanup w).oscillatorPresent = false ∧
    (cleanup w).gainPresent = false ∧
    (cleanup w).volMeterPresent = false ∧
    (cleanup w).sourcePresent = false ∧
    (cleanup w).heldTracks = none ∧
    (cleanup w).audioContextPresent = false ∧
    (w.liveHandles = w.heldTracks.getD 0 → (cleanup w).liveHandles = 0) := by
  unfold cleanup
  refine ⟨rfl, rfl, rfl, rfl, rfl, rfl, rfl, rfl, fun h => ?_⟩
  simp [h]

/-- C9 witness: double cleanup from a fully-populated running state. -/
theorem cleanup_idempotent_witness :
    cleanup (cleanup ⟨true, true, true, true, true, some 1, 1, true⟩) =
      cleanup ⟨true, true, true, true, true, some 1, 1, true⟩ ∧
    (cleanup ⟨true, true, true, true, true, some 1, 1, true⟩).liveHandles = 0 :=
  ⟨(cleanup_idempotent ⟨true, true, true, true, true, some 1, 1, true⟩).1,
   (cleanup_idempotent ⟨true, true, true, true, true, some 1, 1, true⟩).2.2.2.2.2.2.2.2 rfl⟩

/-- C10: a mic test that completes with an empty volume history resolves on
the success path with `{level: 0, noise: 0}` — not the worst-case noise 1
of the error path — records it as the microphone sub-result, and that noise
value satisfies the background-noise check for any positive threshold. -/
theorem mic_empty_history (cfg : AudioCheckConfig) (s : CheckState)
    (hs : s.initialized = true) :
    runMicTest cfg ⟨false, []⟩ s =
      .ok (⟨0, 0⟩,
        { s with isRunning := false, volumeHistory := ([] : List ℚ),
                 results := { s.results with microphoneTest := some ⟨0, 0⟩ } }) ∧
    (⟨0, 0⟩ : MicrophoneTestResult) ≠ (⟨0, 1⟩ : MicrophoneTestResult) ∧
    ((0 : ℚ) < cfg.maxBackgroundNoise →
      (⟨0, 0⟩ : MicrophoneTestResult).noise < cfg.maxBackgroundNoise) := by
  refine ⟨?_, by simp, fun h => h⟩
  norm_num [runMicTest, hs, volumeAt, percentileIndex, List.insertionSort]

/-- C10 witness: the empty-history run from a freshly initialized state. -/
theorem mic_empty_history_witness :
    runMicTest defaultConfig ⟨false, []⟩ readyState =
      .ok (⟨0, 0⟩,
        { readyState with isRunning := false, volumeHistory := ([] : List ℚ),
                          results := { readyState.results with
                                       microphoneTest := some ⟨0, 0⟩ } }) :=
  (mic_empty_history defaultConfig readyState rfl).1

end NUVI
